import Mathlib

/-!
Shallow embedding of the LemonOS volume-management subsystem
(namespace fs::VolumeManager, file src/unnamed/part_001) together with
theorems checking the specification's claims about it.

Modelling conventions:
- An FsNode pointer is modelled as a record carrying the data the registry
  inspects: an identity tag and the IsCharDevice flag.
- An FsVolume pointer is modelled as a record with a ptr field standing for
  the object pointer (UnregisterVolume compares list entries by pointer
  equality, so ptr is the identity used there), the mountPointDirent.name
  string, and the volume id stored by FsVolume::SetVolumeID.
  FsVolume.h is not part of the shown sources; per the data-model section of
  the spec, SetVolumeID stores the id assigned at registration.
- A filesystem driver is a record of its two capabilities Identify and Mount.
- The mutable globals (volumes list, nextVolumeID, nextVolumeName,
  systemVolume) form the RegState record; every operation is a pure function
  from RegState to its result and the updated RegState.
- assert(...) failures terminate the process; a call that can abort returns
  Except Abort, with Except.error marking the abort (and which assertion
  fired) and Except.ok carrying the returned status code and the new state.
- RegisterVolume additionally mutates the external namespace
  (mountPoint->parent = fs::GetRoot()); that side effect lives in the node
  graph outside the registry state and is not part of any claim, so it is
  not tracked in RegState.
-/

namespace LemonOS

/-- Model of an FsNode pointer: identity tag plus the IsCharDevice() answer
the registry branches on. -/
structure FsNode where
  nid : Nat
  isCharDevice : Bool
deriving DecidableEq, Repr

/-- Model of an FsVolume pointer. ptr is the object pointer (list entries
with equal ptr denote the same C++ object); name is mountPointDirent.name;
volumeID is the id stored by SetVolumeID. -/
structure FsVolume where
  ptr : Nat
  name : String
  volumeID : Nat
deriving DecidableEq, Repr

/-- Model of an FsDriver: the Identify and Mount capabilities. -/
structure FsDriver where
  identify : FsNode → Bool
  mount : FsNode → String → Option FsVolume

/-- Return codes of the volume manager: 0 (ok) and the VolumeError codes. -/
inductive VolumeStatus where
  | ok
  | notDevice
  | invalidFilesystem
  | misc
  | volumeNotFound
deriving DecidableEq, Repr

/-- Which assertion aborted the process (assert() in the source). -/
inductive Abort where
  | identifyFailed
  | nameTooLong
  | devMissing
  | noSystemVolume
deriving DecidableEq, Repr

/-- The mutable globals of fs::VolumeManager. -/
structure RegState where
  volumes : List FsVolume
  nextVolumeID : Nat
  nextVolumeName : Nat
  systemVolume : Option FsVolume
deriving DecidableEq, Repr

/-- State after Initialize(): empty list, nextVolumeID = 1,
nextVolumeName = 0, systemVolume = nullptr. -/
def initialState : RegState :=
  { volumes := [], nextVolumeID := 1, nextVolumeName := 0, systemVolume := none }

/-- POSIX NAME_MAX, the bound used by assert(strlen(name) < NAME_MAX). -/
def NAME_MAX : Nat := 255

/-- FindVolume: linear scan returning the first volume whose
mountPointDirent.name compares equal (strcmp) to the argument. -/
def FindVolume (s : RegState) (name : String) : Option FsVolume :=
  s.volumes.find? (fun v => v.name == name)

/-- RegisterVolume: assigns nextVolumeID (post-incrementing the counter) via
SetVolumeID and appends the volume at the back of the list. The namespace
side effect on mountPoint->parent is external to RegState. -/
def RegisterVolume (s : RegState) (volume : FsVolume) : RegState :=
  let v := { volume with volumeID := s.nextVolumeID }
  { s with nextVolumeID := s.nextVolumeID + 1, volumes := s.volumes ++ [v] }

/-- Removal of the first list entry satisfying p; none when no entry does. -/
def removeFirst (p : FsVolume → Bool) : List FsVolume → Option (List FsVolume)
  | [] => none
  | v :: rest => if p v then some rest else (removeFirst p rest).map (fun l => v :: l)

/-- UnregisterVolume: removes the first entry equal, as a pointer, to the
argument; VolumeErrorVolumeNotFound when no entry matches. -/
def UnregisterVolume (s : RegState) (volume : FsVolume) : VolumeStatus × RegState :=
  match removeFirst (fun w => w.ptr == volume.ptr) s.volumes with
  | some vs => (.ok, { s with volumes := vs })
  | none => (.volumeNotFound, s)

/-- Unmount: scans for the first name match; on a match calls
UnregisterVolume on it and returns 0 (the source discards UnregisterVolume's
return value); otherwise VolumeErrorVolumeNotFound. -/
def Unmount (s : RegState) (name : String) : VolumeStatus × RegState :=
  match s.volumes.find? (fun v => v.name == name) with
  | some v => (.ok, (UnregisterVolume s v).2)
  | none => (.volumeNotFound, s)

/-- Name synthesized when the caller passes no name:
"volume" followed by itoa(suffix, 10). -/
def syntheticName (suffix : Nat) : String := "volume" ++ toString suffix

/-- The name argument the Mount overload passes to driver->Mount: the
caller-supplied name when present, otherwise the synthetic name built from
the current nextVolumeName counter. -/
def passedName (s : RegState) (name : Option String) : String :=
  match name with
  | some n => n
  | none => syntheticName s.nextVolumeName

/-- Explicit-driver overload Mount(device, driver, name). Checks
IsCharDevice, asserts driver->Identify(device), resolves the name (asserting
strlen(name) < NAME_MAX for a supplied name; post-incrementing
nextVolumeName for a synthesized one), calls driver->Mount, and on a volume
registers it; a null volume yields VolumeErrorMisc. -/
def MountWithDriver (s : RegState) (driver : FsDriver) (device : FsNode)
    (name : Option String) : Except Abort (VolumeStatus × RegState) :=
  if !device.isCharDevice then .ok (.notDevice, s)
  else if !driver.identify device then .error .identifyFailed
  else
    match name with
    | some n =>
      if NAME_MAX ≤ n.length then .error .nameTooLong
      else
        match driver.mount device n with
        | none => .ok (.misc, s)
        | some vol => .ok (.ok, RegisterVolume s vol)
    | none =>
      let nm := syntheticName s.nextVolumeName
      let s1 := { s with nextVolumeName := s.nextVolumeName + 1 }
      match driver.mount device nm with
      | none => .ok (.misc, s1)
      | some vol => .ok (.ok, RegisterVolume s1 vol)

/-- External collaborators of the registry: whether ResolvePath("/dev")
yields a node, the directory entry names ReadDir yields by index, FindDir
on the /dev node, and fs::IdentifyFilesystem. -/
structure Env where
  devExists : Bool
  devEntries : List String
  findDir : String → Option FsNode
  identifyFilesystem : FsNode → Option FsDriver

/-- Auto-detect overload Mount(device, name): checks IsCharDevice, asks
IdentifyFilesystem for a driver (VolumeErrorInvalidFilesystem when none),
then delegates to the explicit-driver overload. -/
def MountAuto (env : Env) (s : RegState) (device : FsNode)
    (name : Option String) : Except Abort (VolumeStatus × RegState) :=
  if !device.isCharDevice then .ok (.notDevice, s)
  else
    match env.identifyFilesystem device with
    | none => .ok (.invalidFilesystem, s)
    | some driver => MountWithDriver s driver device name

/-- The while(ReadDir(...)) loop body of MountSystemVolume over the
remaining directory entries: resolve the entry, require a character device,
identify a driver, try Mount(device, drv, "system"), and stop on the first
return of 0. -/
def scanDev (env : Env) : RegState → List String → Except Abort RegState
  | s, [] => .ok s
  | s, ent :: rest =>
    match env.findDir ent with
    | some device =>
      if device.isCharDevice then
        match env.identifyFilesystem device with
        | some drv =>
          match MountWithDriver s drv device (some "system") with
          | .error a => .error a
          | .ok (st, s1) => if st = .ok then .ok s1 else scanDev env s1 rest
        | none => scanDev env s rest
      else scanDev env s rest
    | none => scanDev env s rest

/-- MountSystemVolume: asserts that /dev resolves, then runs the scan loop
from index 0. Note that the source never assigns the systemVolume global
anywhere in this function (or elsewhere). -/
def MountSystemVolume (env : Env) (s : RegState) : Except Abort RegState :=
  if !env.devExists then .error .devMissing
  else scanDev env s env.devEntries

/-- SystemVolume(): assert(systemVolume); return systemVolume. The error
value models the assertion abort when no system volume was ever set. -/
def SystemVolume (s : RegState) : Except Abort FsVolume :=
  match s.systemVolume with
  | some v => .ok v
  | none => .error .noSystemVolume

/-- One registry bookkeeping call in a trace: RegisterVolume on a volume or
UnregisterVolume on a volume. -/
inductive RegOp where
  | register (v : FsVolume)
  | unregister (v : FsVolume)

/-- Run a trace of register/unregister calls from a state. -/
def runOps : RegState → List RegOp → RegState
  | s, [] => s
  | s, .register v :: rest => runOps (RegisterVolume s v) rest
  | s, .unregister v :: rest => runOps (UnregisterVolume s v).2 rest

/-- The ids handed out by the RegisterVolume calls of a trace, in
registration order. -/
def assignedIDs : RegState → List RegOp → List Nat
  | _, [] => []
  | s, .register v :: rest => s.nextVolumeID :: assignedIDs (RegisterVolume s v) rest
  | s, .unregister v :: rest => assignedIDs (UnregisterVolume s v).2 rest

/-- Number of RegisterVolume calls in a trace. -/
def countRegs : List RegOp → Nat
  | [] => 0
  | .register _ :: rest => countRegs rest + 1
  | .unregister _ :: rest => countRegs rest

/-- Registry states whose stored ids are below the counter and pairwise
distinct; Initialize() establishes this and every operation preserves it. -/
def goodState (s : RegState) : Prop :=
  (∀ v ∈ s.volumes, v.volumeID < s.nextVolumeID) ∧
    (s.volumes.map FsVolume.volumeID).Nodup

/-- A character device node used in the concrete examples. -/
def exDev : FsNode := { nid := 0, isCharDevice := true }

/-- A driver that identifies every device but whose Mount always fails. -/
def failDrv : FsDriver := { identify := fun _ => true, mount := fun _ _ => none }

/-- A driver that identifies every device and mounts it at the requested
name (object pointer 7, id not yet assigned). -/
def okDrv : FsDriver :=
  { identify := fun _ => true, mount := fun _ n => some { ptr := 7, name := n, volumeID := 0 } }

/-- Concrete boot environment: /dev resolves and holds one entry, a
character device every driver identifies and mounts successfully. -/
def bugEnv : Env :=
  { devExists := true
    devEntries := ["dev0"]
    findDir := fun n => if n = "dev0" then some exDev else none
    identifyFilesystem := fun _ => some okDrv }

/-- Registry state after the successful boot scan of bugEnv: the volume is
registered under "system" with id 1, yet systemVolume is still null. -/
def bugAfter : RegState :=
  { volumes := [{ ptr := 7, name := "system", volumeID := 1 }]
    nextVolumeID := 2
    nextVolumeName := 0
    systemVolume := none }

/-- Concrete boot environment with three character devices in /dev of
which only the second is identifiable. -/
def scanEnv : Env :=
  { devExists := true
    devEntries := ["da", "db", "dc"]
    findDir := fun n =>
      if n = "da" then some { nid := 0, isCharDevice := true }
      else if n = "db" then some { nid := 1, isCharDevice := true }
      else if n = "dc" then some { nid := 2, isCharDevice := true }
      else none
    identifyFilesystem := fun d => if d.nid = 1 then some okDrv else none }

/-- A concrete two-volume registry used by witnesses. -/
def twoVols : RegState :=
  { volumes := [{ ptr := 1, name := "a", volumeID := 1 },
                { ptr := 2, name := "b", volumeID := 2 }]
    nextVolumeID := 3
    nextVolumeName := 0
    systemVolume := none }

/-- Characterization of List.find?: a hit is the head of the suffix after
the longest miss-only prefix. -/
theorem find?_eq_some_split {α : Type} {p : α → Bool} {l : List α} {v : α} :
    l.find? p = some v ↔
      p v = true ∧ ∃ l₁ l₂, l = l₁ ++ v :: l₂ ∧ ∀ w ∈ l₁, p w = false := by
  induction l with
  | nil => simp
  | cons a rest ih =>
    rw [List.find?_cons]
    cases ha : p a with
    | true =>
      simp only []
      constructor
      · rintro h
        cases h
        exact ⟨ha, [], rest, by simp⟩
      · rintro ⟨hv, l₁, l₂, hsplit, hmiss⟩
        cases l₁ with
        | nil => simp at hsplit; rw [hsplit.1]
        | cons b l₁ =>
          simp at hsplit
          have hb := hmiss b (by simp)
          rw [hsplit.1] at ha
          rw [ha] at hb
          cases hb
    | false =>
      simp only []
      rw [ih]
      constructor
      · rintro ⟨hv, l₁, l₂, hsplit, hmiss⟩
        refine ⟨hv, a :: l₁, l₂, by simp [hsplit], ?_⟩
        intro w hw
        rcases List.mem_cons.mp hw with hw | hw
        · rw [hw]; exact ha
        · exact hmiss w hw
      · rintro ⟨hv, l₁, l₂, hsplit, hmiss⟩
        cases l₁ with
        | nil =>
          simp at hsplit
          rw [hsplit.1] at ha
          rw [ha] at hv
          cases hv
        | cons b l₁ =>
          simp at hsplit
          refine ⟨hv, l₁, l₂, hsplit.2, ?_⟩
          intro w hw
          exact hmiss w (by simp [hw])

/-- C7: FindVolume returns the earliest-registered volume whose mount name
equals the query (the first match in insertion order) and none when no
registered volume has that name. FindVolume is a pure function of the
registry state, so it modifies nothing. -/
theorem findVolume_first_match (s : RegState) (name : String) :
    (FindVolume s name = none ↔ ∀ v ∈ s.volumes, v.name ≠ name) ∧
    (∀ v, FindVolume s name = some v ↔
      v.name = name ∧
        ∃ l₁ l₂, s.volumes = l₁ ++ v :: l₂ ∧ ∀ w ∈ l₁, w.name ≠ name) := by
  constructor
  · rw [FindVolume, List.find?_eq_none]
    simp
  · intro v
    rw [FindVolume, find?_eq_some_split]
    simp

/-- C7 witness: on a concrete two-volume registry a lookup hits the first
"b" entry and a missing name yields none. -/
theorem findVolume_first_match_witness :
    FindVolume { volumes := [{ ptr := 1, name := "b", volumeID := 1 },
                             { ptr := 2, name := "b", volumeID := 2 }],
                 nextVolumeID := 3, nextVolumeName := 0, systemVolume := none } "b" =
      some { ptr := 1, name := "b", volumeID := 1 } :=
  ((findVolume_first_match
      { volumes := [{ ptr := 1, name := "b", volumeID := 1 },
                    { ptr := 2, name := "b", volumeID := 2 }],
        nextVolumeID := 3, nextVolumeName := 0, systemVolume := none } "b").2
    { ptr := 1, name := "b", volumeID := 1 }).mpr
    ⟨rfl, [], [{ ptr := 2, name := "b", volumeID := 2 }], rfl, by simp⟩

/-- C9: both Mount overloads reject a node that is not a character device
with VolumeErrorNotDevice and return the registry state completely
unchanged. -/
theorem mount_non_device_rejected (env : Env) (s : RegState) (device : FsNode)
    (driver : FsDriver) (name : Option String)
    (h : device.isCharDevice = false) :
    MountAuto env s device name = .ok (.notDevice, s) ∧
    MountWithDriver s driver device name = .ok (.notDevice, s) := by
  constructor
  · simp [MountAuto, h]
  · simp [MountWithDriver, h]

/-- C9 witness at a concrete non-device node and the concrete environment. -/
theorem mount_non_device_rejected_witness :
    MountAuto bugEnv initialState { nid := 3, isCharDevice := false } none =
      .ok (.notDevice, initialState) ∧
    MountWithDriver initialState okDrv { nid := 3, isCharDevice := false } none =
      .ok (.notDevice, initialState) :=
  mount_non_device_rejected bugEnv initialState
    { nid := 3, isCharDevice := false } okDrv none rfl

/-- C4: on a character device the explicit-driver Mount overload asserts
driver->Identify(device): when Identify returns false the process aborts
(no status code is returned), and when Identify returns true that assertion
cannot fire. -/
theorem mount_identify_assert (s : RegState) (driver : FsDriver)
    (device : FsNode) (name : Option String)
    (hchar : device.isCharDevice = true) :
    (driver.identify device = false →
      MountWithDriver s driver device name = .error .identifyFailed) ∧
    (driver.identify device = true →
      MountWithDriver s driver device name ≠ .error .identifyFailed) := by
  constructor
  · intro hid
    simp [MountWithDriver, hchar, hid]
  · intro hid
    cases name with
    | some n =>
      by_cases hlen : NAME_MAX ≤ n.length
      · simp [MountWithDriver, hchar, hid, hlen]
      · cases hm : driver.mount device n <;>
          simp [MountWithDriver, hchar, hid, hlen, hm]
    | none =>
      cases hm : driver.mount device (syntheticName s.nextVolumeName) <;>
        simp [MountWithDriver, hchar, hid, hm]

/-- C4 witness: a driver refusing identification aborts the call on a
concrete device, and one accepting it does not hit that assertion. -/
theorem mount_identify_assert_witness :
    MountWithDriver initialState
        { identify := fun _ => false, mount := fun _ _ => none } exDev none =
      .error .identifyFailed ∧
    MountWithDriver initialState okDrv exDev none ≠ .error .identifyFailed :=
  ⟨(mount_identify_assert initialState
      { identify := fun _ => false, mount := fun _ _ => none } exDev none rfl).1 rfl,
   (mount_identify_assert initialState okDrv exDev none rfl).2 rfl⟩

/-- C10: for a character device, a supplied name of length at least
NAME_MAX makes the explicit-driver Mount overload abort the process (no
status code is ever returned), and names shorter than NAME_MAX can never
trip that length assertion. -/
theorem mount_name_length_assert (s : RegState) (driver : FsDriver)
    (device : FsNode) (n : String) (hchar : device.isCharDevice = true) :
    (NAME_MAX ≤ n.length →
      ∀ r, MountWithDriver s driver device (some n) ≠ .ok r) ∧
    (n.length < NAME_MAX →
      MountWithDriver s driver device (some n) ≠ .error .nameTooLong) := by
  constructor
  · intro hlen r
    cases hid : driver.identify device
    · simp [MountWithDriver, hchar, hid]
    · simp [MountWithDriver, hchar, hid, hlen]
  · intro hlen
    cases hid : driver.identify device
    · simp [MountWithDriver, hchar, hid]
    · have hlen2 : ¬ NAME_MAX ≤ n.length := by omega
      cases hm : driver.mount device n <;>
        simp [MountWithDriver, hchar, hid, hlen2, hm]

/-- C10 witness: a 255-character name aborts the call on a concrete device,
and a short name does not hit the length assertion. -/
theorem mount_name_length_assert_witness :
    (∀ r, MountWithDriver initialState okDrv exDev
        (some (String.mk (List.replicate 255 'a'))) ≠ .ok r) ∧
    MountWithDriver initialState okDrv exDev (some "x") ≠
      .error .nameTooLong :=
  ⟨(mount_name_length_assert initialState okDrv exDev
      (String.mk (List.replicate 255 'a')) rfl).1
      (by rw [String.length, List.length_replicate, NAME_MAX]),
   (mount_name_length_assert initialState okDrv exDev "x" rfl).2 (by decide)⟩

/-- UnregisterVolume only edits the volume list: both counters and the
systemVolume reference are untouched. -/
theorem unregisterVolume_counters (s : RegState) (v : FsVolume) :
    ((UnregisterVolume s v).2).nextVolumeName = s.nextVolumeName ∧
    ((UnregisterVolume s v).2).nextVolumeID = s.nextVolumeID ∧
    ((UnregisterVolume s v).2).systemVolume = s.systemVolume := by
  rcases h : removeFirst (fun w => w.ptr == v.ptr) s.volumes with _ | vs <;>
    simp [UnregisterVolume, h]

/-- Unmount only edits the volume list: both counters and the systemVolume
reference are untouched. -/
theorem unmount_counters (s : RegState) (n : String) :
    ((Unmount s n).2).nextVolumeName = s.nextVolumeName ∧
    ((Unmount s n).2).nextVolumeID = s.nextVolumeID ∧
    ((Unmount s n).2).systemVolume = s.systemVolume := by
  rcases h : s.volumes.find? (fun v => v.name == n) with _ | v <;>
    simp [Unmount, h, unregisterVolume_counters]

/-- A whole sequence of Unmount calls leaves nextVolumeName untouched. -/
theorem foldl_unmount_nextVolumeName (names : List String) :
    ∀ s : RegState,
      (names.foldl (fun s n => (Unmount s n).2) s).nextVolumeName =
        s.nextVolumeName := by
  induction names with
  | nil => intro s; rfl
  | cons n rest ih =>
    intro s
    rw [List.foldl_cons, ih, (unmount_counters s n).1]

/-- With the character-device and Identify checks passed, the no-name Mount
path increments nextVolumeName and hands driver->Mount exactly the
passedName of the pre-call state. -/
theorem mountWithDriver_none_eq (s : RegState) (driver : FsDriver)
    (device : FsNode) (hchar : device.isCharDevice = true)
    (hid : driver.identify device = true) :
    MountWithDriver s driver device none =
      (match driver.mount device (passedName s none) with
       | none => .ok (.misc, { s with nextVolumeName := s.nextVolumeName + 1 })
       | some vol =>
         .ok (.ok,
           RegisterVolume { s with nextVolumeName := s.nextVolumeName + 1 } vol)) := by
  simp [MountWithDriver, passedName, hchar, hid]

/-- C2 counterexample: a no-name mount whose driver fails returns
VolumeErrorMisc but still increments nextSyntheticNameSuffix, so the
registry is not left completely unmodified. -/
theorem mount_misc_failure_suffix_cex :
    MountWithDriver initialState failDrv exDev none =
      .ok (.misc, { initialState with nextVolumeName := 1 }) ∧
    ({ initialState with nextVolumeName := 1 }).nextVolumeName ≠
      initialState.nextVolumeName :=
  ⟨rfl, by decide⟩

/-- C2 amended: when driver->Mount returns no volume the call returns
VolumeErrorMisc; the volume sequence, nextVolumeId and systemVolume are
unchanged, and nextSyntheticNameSuffix is unchanged when the caller
supplied a name but incremented (the synthesized suffix is consumed) when
the name was omitted. -/
theorem mount_driver_failure_registry_effects (s : RegState)
    (driver : FsDriver) (device : FsNode) (name : Option String)
    (hchar : device.isCharDevice = true)
    (hid : driver.identify device = true)
    (hlen : ∀ n, name = some n → n.length < NAME_MAX)
    (hfail : driver.mount device (passedName s name) = none) :
    ∃ s1, MountWithDriver s driver device name = .ok (.misc, s1) ∧
      s1.volumes = s.volumes ∧
      s1.nextVolumeID = s.nextVolumeID ∧
      s1.systemVolume = s.systemVolume ∧
      s1.nextVolumeName =
        (match name with
         | some _ => s.nextVolumeName
         | none => s.nextVolumeName + 1) := by
  cases name with
  | some n =>
    have hlen2 : ¬ NAME_MAX ≤ n.length := by
      have := hlen n rfl
      omega
    simp only [passedName] at hfail
    refine ⟨s, ?_, rfl, rfl, rfl, rfl⟩
    simp [MountWithDriver, hchar, hid, hlen2, hfail]
  | none =>
    simp only [passedName] at hfail
    refine ⟨{ s with nextVolumeName := s.nextVolumeName + 1 }, ?_, rfl, rfl, rfl, rfl⟩
    simp [MountWithDriver, hchar, hid, hfail]

/-- C2 amended witness: a named mount through a failing driver on the
initial state leaves every registry component unchanged. -/
theorem mount_driver_failure_registry_effects_witness :
    ∃ s1, MountWithDriver initialState failDrv exDev (some "x") =
        .ok (.misc, s1) ∧
      s1.volumes = initialState.volumes ∧
      s1.nextVolumeID = initialState.nextVolumeID ∧
      s1.systemVolume = initialState.systemVolume ∧
      s1.nextVolumeName =
        (match (some "x" : Option String) with
         | some _ => initialState.nextVolumeName
         | none => initialState.nextVolumeName + 1) :=
  mount_driver_failure_registry_effects initialState failDrv exDev (some "x")
    rfl rfl (by intro n h; cases h; decide) rfl

/-- C8: a no-name Mount hands driver->Mount the name "volume" followed by
the current suffix counter and increments that counter whatever the driver
answers; starting from suffix 0, the first call uses "volume0" and, after
any sequence of Unmount calls, the next no-name call uses the distinct name
"volume1". -/
theorem synthetic_names_distinct (s0 : RegState) (driver : FsDriver)
    (device : FsNode) (hchar : device.isCharDevice = true)
    (hid : driver.identify device = true) (h0 : s0.nextVolumeName = 0)
    (r1 : VolumeStatus) (s1 : RegState)
    (h1 : MountWithDriver s0 driver device none = .ok (r1, s1))
    (unmounts : List String) :
    passedName s0 none = "volume0" ∧
    passedName (unmounts.foldl (fun s n => (Unmount s n).2) s1) none =
      "volume1" ∧
    ("volume0" : String) ≠ "volume1" ∧
    MountWithDriver s0 driver device none =
      (match driver.mount device (passedName s0 none) with
       | none => .ok (.misc, { s0 with nextVolumeName := s0.nextVolumeName + 1 })
       | some vol =>
         .ok (.ok,
           RegisterVolume { s0 with nextVolumeName := s0.nextVolumeName + 1 } vol)) := by
  have heq := mountWithDriver_none_eq s0 driver device hchar hid
  have hs1 : s1.nextVolumeName = s0.nextVolumeName + 1 := by
    rw [heq] at h1
    cases hm : driver.mount device (passedName s0 none) <;> rw [hm] at h1 <;>
      simp only [Except.ok.injEq, Prod.mk.injEq] at h1
    · rw [← h1.2]
    · rw [← h1.2, RegisterVolume]
  refine ⟨?_, ?_, by decide, heq⟩
  · show syntheticName s0.nextVolumeName = "volume0"
    rw [h0]
    rfl
  · show syntheticName
        (unmounts.foldl (fun s n => (Unmount s n).2) s1).nextVolumeName =
      "volume1"
    rw [foldl_unmount_nextVolumeName, hs1, h0]
    rfl

/-- C8 witness: two concrete no-name mounts around an interleaved unmount
use "volume0" then "volume1". -/
theorem synthetic_names_distinct_witness :
    passedName initialState none = "volume0" ∧
    passedName ((["a"] : List String).foldl (fun s n => (Unmount s n).2)
        { initialState with nextVolumeName := 1 }) none = "volume1" ∧
    ("volume0" : String) ≠ "volume1" ∧
    MountWithDriver initialState failDrv exDev none =
      (match failDrv.mount exDev (passedName initialState none) with
       | none =>
         .ok (.misc,
           { initialState with nextVolumeName := initialState.nextVolumeName + 1 })
       | some vol =>
         .ok (.ok,
           RegisterVolume
             { initialState with nextVolumeName := initialState.nextVolumeName + 1 }
             vol)) :=
  synthetic_names_distinct initialState failDrv exDev rfl rfl rfl .misc
    { initialState with nextVolumeName := 1 } rfl ["a"]

/-- removeFirst deletes exactly the head of the suffix after a miss-only
prefix. -/
theorem removeFirst_split {p : FsVolume → Bool} (l₁ l₂ : List FsVolume)
    (v : FsVolume) (hmiss : ∀ w ∈ l₁, p w = false) (hv : p v = true) :
    removeFirst p (l₁ ++ v :: l₂) = some (l₁ ++ l₂) := by
  induction l₁ with
  | nil => simp [removeFirst, hv]
  | cons b l₁ ih =>
    have hb := hmiss b (by simp)
    have hrest := ih (fun w hw => hmiss w (by simp [hw]))
    simp [removeFirst, hb, hrest]

/-- C6: Unmount(name) returns VolumeErrorVolumeNotFound exactly when no
registered volume carries that mount name, leaving the registry unchanged;
otherwise it removes precisely the earliest-registered volume with that
name (the one FindVolume returns), returns 0, and keeps every other volume
in its original order. Distinct list entries model distinct FsVolume
objects, so entries with equal ptr coincide. -/
theorem unmount_spec (s : RegState) (name : String)
    (hinj : ∀ v ∈ s.volumes, ∀ w ∈ s.volumes, v.ptr = w.ptr → v = w) :
    ((∀ v ∈ s.volumes, v.name ≠ name) →
      Unmount s name = (.volumeNotFound, s)) ∧
    ((Unmount s name).1 = .volumeNotFound →
      (∀ v ∈ s.volumes, v.name ≠ name) ∧ (Unmount s name).2 = s) ∧
    (∀ v, FindVolume s name = some v →
      (Unmount s name).1 = .ok ∧
      ∃ l₁ l₂, s.volumes = l₁ ++ v :: l₂ ∧ (∀ w ∈ l₁, w.name ≠ name) ∧
        (Unmount s name).2 = { s with volumes := l₁ ++ l₂ }) := by
  rcases hf : s.volumes.find? (fun v => v.name == name) with _ | u
  · have hnone : ∀ v ∈ s.volumes, v.name ≠ name := by
      have h1 := List.find?_eq_none.mp hf
      intro v hv
      have := h1 v hv
      simpa using this
    refine ⟨fun _ => by simp [Unmount, hf], fun _ => ⟨hnone, by simp [Unmount, hf]⟩, ?_⟩
    intro v hv
    rw [FindVolume, hf] at hv
    cases hv
  · have humem : u ∈ s.volumes := List.mem_of_find?_eq_some hf
    have huname : u.name = name := by
      have := List.find?_some hf
      simpa using this
    refine ⟨?_, ?_, ?_⟩
    · intro hall
      exact absurd huname (hall u humem)
    · intro habs
      simp [Unmount, hf] at habs
    · intro v hv
      rw [FindVolume, hf] at hv
      cases hv
      obtain ⟨hpv, l₁, l₂, hsplit, hmiss⟩ := find?_eq_some_split.mp hf
      have hvmem : u ∈ s.volumes := humem
      have hmiss2 : ∀ w ∈ l₁, (w.ptr == u.ptr) = false := by
        intro w hw
        have hwmem : w ∈ s.volumes := by
          rw [hsplit]
          exact List.mem_append.mpr (Or.inl hw)
        by_contra hne
        have hptr : w.ptr = u.ptr := by
          have := eq_true_of_ne_false hne
          exact beq_iff_eq.mp this
        have hwu : w = u := hinj w hwmem u hvmem hptr
        have := hmiss w hw
        rw [hwu] at this
        rw [hpv] at this
        cases this
      have hrem : removeFirst (fun w => w.ptr == u.ptr) s.volumes =
          some (l₁ ++ l₂) := by
        rw [hsplit]
        exact removeFirst_split l₁ l₂ u hmiss2 (by simp)
      have hnames : ∀ w ∈ l₁, w.name ≠ name := by
        intro w hw
        have := hmiss w hw
        simpa using this
      exact ⟨by simp [Unmount, hf],
        l₁, l₂, hsplit, hnames,
        by simp [Unmount, hf, UnregisterVolume, hrem]⟩

/-- C6 witness: unmounting "b" from a concrete two-volume registry removes
exactly the "b" volume and returns 0. -/
theorem unmount_spec_witness :
    (Unmount twoVols "b").1 = .ok ∧
    ∃ l₁ l₂, twoVols.volumes = l₁ ++ { ptr := 2, name := "b", volumeID := 2 } :: l₂ ∧
      (∀ w ∈ l₁, w.name ≠ "b") ∧
      (Unmount twoVols "b").2 = { twoVols with volumes := l₁ ++ l₂ } :=
  ((unmount_spec twoVols "b" (by decide)).2.2
    { ptr := 2, name := "b", volumeID := 2 } rfl)

/-- removeFirst returns an order-preserving sublist of its input. -/
theorem removeFirst_sublist {p : FsVolume → Bool} :
    ∀ {l l2 : List FsVolume}, removeFirst p l = some l2 → l2.Sublist l := by
  intro l
  induction l with
  | nil => intro l2 h; cases h
  | cons v rest ih =>
    intro l2 h
    rw [removeFirst] at h
    by_cases hp : p v = true
    · rw [if_pos hp] at h
      cases h
      exact List.sublist_cons_self v rest
    · rw [if_neg hp] at h
      cases hr : removeFirst p rest with
      | none => rw [hr] at h; cases h
      | some lx =>
        rw [hr] at h
        simp only [Option.map_some'] at h
        cases h
        exact (ih hr).cons₂ v

/-- RegisterVolume keeps every stored id below the counter and the stored
ids pairwise distinct. -/
theorem register_good (s : RegState) (v : FsVolume) (h : goodState s) :
    goodState (RegisterVolume s v) := by
  obtain ⟨hbound, hnodup⟩ := h
  constructor
  · intro w hw
    simp only [RegisterVolume, List.mem_append, List.mem_singleton] at hw
    rcases hw with hw | hw
    · have := hbound w hw
      simp only [RegisterVolume]
      omega
    · rw [hw]
      exact Nat.lt_succ_self _
  · simp only [RegisterVolume, List.map_append, List.map_cons, List.map_nil]
    rw [List.nodup_append]
    refine ⟨hnodup, by simp, ?_⟩
    intro x hx hx2
    simp at hx2
    rcases List.mem_map.mp hx with ⟨w, hw, hxw⟩
    have := hbound w hw
    omega

/-- UnregisterVolume keeps every stored id below the counter and the
stored ids pairwise distinct. -/
theorem unregister_good (s : RegState) (v : FsVolume) (h : goodState s) :
    goodState (UnregisterVolume s v).2 := by
  obtain ⟨hbound, hnodup⟩ := h
  rcases hr : removeFirst (fun w => w.ptr == v.ptr) s.volumes with _ | vs
  · simp only [UnregisterVolume, hr]
    exact ⟨hbound, hnodup⟩
  · have hsub := removeFirst_sublist hr
    simp only [UnregisterVolume, hr]
    constructor
    · intro w hw
      exact hbound w (hsub.subset hw)
    · exact (hsub.map FsVolume.volumeID).nodup hnodup

/-- Every trace of register/unregister calls preserves goodState. -/
theorem runOps_good (ops : List RegOp) :
    ∀ s : RegState, goodState s → goodState (runOps s ops) := by
  induction ops with
  | nil => intro s h; exact h
  | cons op rest ih =>
    intro s h
    cases op with
    | register v => exact ih (RegisterVolume s v) (register_good s v h)
    | unregister v => exact ih (UnregisterVolume s v).2 (unregister_good s v h)

/-- The ids a trace hands out are consecutive starting at the current
counter value, whatever unregistrations are interleaved. -/
theorem assignedIDs_range (ops : List RegOp) :
    ∀ s : RegState,
      assignedIDs s ops = List.range' s.nextVolumeID (countRegs ops) := by
  induction ops with
  | nil => intro s; rfl
  | cons op rest ih =>
    intro s
    cases op with
    | register v =>
      show s.nextVolumeID :: assignedIDs (RegisterVolume s v) rest =
        List.range' s.nextVolumeID (countRegs rest + 1)
      rw [ih, List.range'_succ]
      rfl
    | unregister v =>
      show assignedIDs (UnregisterVolume s v).2 rest =
        List.range' s.nextVolumeID (countRegs rest)
      rw [ih, (unregisterVolume_counters s v).2.1]

/-- C3: over any trace of N RegisterVolume calls with arbitrary
UnregisterVolume calls interleaved, the ids handed out from the initialized
registry are exactly 1, 2, ..., N in registration order (so an id is never
reused after an unregistration), and the volumes registered at the end of
any such trace carry pairwise distinct ids. -/
theorem registration_ids_monotone (ops : List RegOp) :
    assignedIDs initialState ops = List.range' 1 (countRegs ops) ∧
    ((runOps initialState ops).volumes.map FsVolume.volumeID).Nodup := by
  constructor
  · exact assignedIDs_range ops initialState
  · refine (runOps_good ops initialState ⟨?_, ?_⟩).2
    · intro v hv
      simp [initialState] at hv
    · simp [initialState]

/-- Any result state the explicit-driver Mount overload returns carries the
same systemVolume reference as the input state: the mount path never
assigns the system volume. -/
theorem mountWithDriver_systemVolume (s : RegState) (driver : FsDriver)
    (device : FsNode) (name : Option String) (st : VolumeStatus)
    (s1 : RegState)
    (h : MountWithDriver s driver device name = .ok (st, s1)) :
    s1.systemVolume = s.systemVolume := by
  cases hchar : device.isCharDevice with
  | false =>
    simp [MountWithDriver, hchar] at h
    rw [← h.2]
  | true =>
    cases hid : driver.identify device with
    | false => simp [MountWithDriver, hchar, hid] at h
    | true =>
      cases name with
      | some n =>
        by_cases hlen : NAME_MAX ≤ n.length
        · simp [MountWithDriver, hchar, hid, hlen] at h
        · cases hm : driver.mount device n with
          | none =>
            simp [MountWithDriver, hchar, hid, hlen, hm] at h
            rw [← h.2]
          | some vol =>
            simp [MountWithDriver, hchar, hid, hlen, hm] at h
            rw [← h.2, RegisterVolume]
      | none =>
        cases hm : driver.mount device (syntheticName s.nextVolumeName) with
        | none =>
          simp [MountWithDriver, hchar, hid, hm] at h
          rw [← h.2]
        | some vol =>
          simp [MountWithDriver, hchar, hid, hm] at h
          rw [← h.2, RegisterVolume]

/-- The boot-scan loop never assigns the systemVolume reference. -/
theorem scanDev_systemVolume (env : Env) (l : List String) :
    ∀ s t : RegState, scanDev env s l = .ok t →
      t.systemVolume = s.systemVolume := by
  induction l with
  | nil =>
    intro s t h
    simp only [scanDev, Except.ok.injEq] at h
    rw [← h]
  | cons ent rest ih =>
    intro s t h
    simp only [scanDev] at h
    cases hf : env.findDir ent with
    | none =>
      simp only [hf] at h
      exact ih s t h
    | some dev =>
      simp only [hf] at h
      cases hchar : dev.isCharDevice with
      | false =>
        simp only [hchar, Bool.false_eq_true, if_false] at h
        exact ih s t h
      | true =>
        simp only [hchar, if_true] at h
        cases hidf : env.identifyFilesystem dev with
        | none =>
          simp only [hidf] at h
          exact ih s t h
        | some drv =>
          simp only [hidf] at h
          cases hm : MountWithDriver s drv dev (some "system") with
          | error a =>
            simp only [hm] at h
            exact Except.noConfusion h
          | ok p =>
            obtain ⟨st, s1⟩ := p
            simp only [hm] at h
            have hpre := mountWithDriver_systemVolume s drv dev
              (some "system") st s1 hm
            by_cases hst : st = VolumeStatus.ok
            · rw [if_pos hst] at h
              simp only [Except.ok.injEq] at h
              rw [← h]
              exact hpre
            · rw [if_neg hst] at h
              rw [ih s1 t h, hpre]

/-- C1 (code bug in the source): MountSystemVolume never assigns the
systemVolume reference, so even after a boot scan that successfully mounts
a device as "system" (shown concretely on bugEnv from the initialized
registry), SystemVolume() still hits its assertion and aborts instead of
returning the mounted volume. -/
theorem systemVolume_never_set_by_boot_scan :
    (∀ (env : Env) (s t : RegState),
      MountSystemVolume env s = .ok t → t.systemVolume = s.systemVolume) ∧
    MountSystemVolume bugEnv initialState = .ok bugAfter ∧
    FindVolume bugAfter "system" =
      some { ptr := 7, name := "system", volumeID := 1 } ∧
    SystemVolume bugAfter = .error .noSystemVolume := by
  refine ⟨?_, rfl, rfl, rfl⟩
  intro env s t h
  rw [MountSystemVolume] at h
  cases hdev : env.devExists with
  | false => rw [hdev] at h; cases h
  | true =>
    rw [hdev] at h
    simp only [Bool.not_true, Bool.false_eq_true, if_false] at h
    exact scanDev_systemVolume env env.devEntries s t h

/-- C1 witness: the general conjunct applied to the concrete successful
boot scan. -/
theorem systemVolume_never_set_by_boot_scan_witness :
    bugAfter.systemVolume = initialState.systemVolume :=
  systemVolume_never_set_by_boot_scan.1 bugEnv initialState bugAfter rfl

/-- C5: the boot scan probes /dev entries in index order and, when the
first entry is a character device no driver identifies while the second is
identified by a driver that mounts it as "system", it registers exactly
that second volume and stops: no hypothesis constrains the third entry,
whose devices and drivers are never consulted. -/
theorem boot_scan_short_circuit (env : Env) (s : RegState) (a b c : String)
    (da db : FsNode) (drv : FsDriver) (vol : FsVolume)
    (hdev : env.devExists = true)
    (hents : env.devEntries = [a, b, c])
    (hfa : env.findDir a = some da) (hca : da.isCharDevice = true)
    (hia : env.identifyFilesystem da = none)
    (hfb : env.findDir b = some db) (hcb : db.isCharDevice = true)
    (hib : env.identifyFilesystem db = some drv)
    (hidb : drv.identify db = true)
    (hmb : drv.mount db "system" = some vol) :
    MountSystemVolume env s = .ok (RegisterVolume s vol) := by
  have hlen : ¬ NAME_MAX ≤ ("system" : String).length := by decide
  have hmount : MountWithDriver s drv db (some "system") =
      .ok (.ok, RegisterVolume s vol) := by
    simp [MountWithDriver, hcb, hidb, hlen, hmb]
  rw [MountSystemVolume, hdev]
  simp only [Bool.not_true, Bool.false_eq_true, if_false, hents]
  simp only [scanDev, hfa, hca, hia, if_true]
  simp only [scanDev, hfb, hcb, hib, hmount, if_true, if_pos]

/-- C5 witness: in the concrete three-device environment the scan mounts
the second device as "system". -/
theorem boot_scan_short_circuit_witness :
    MountSystemVolume scanEnv initialState =
      .ok (RegisterVolume initialState
        { ptr := 7, name := "system", volumeID := 0 }) :=
  boot_scan_short_circuit scanEnv initialState "da" "db" "dc"
    { nid := 0, isCharDevice := true } { nid := 1, isCharDevice := true }
    okDrv { ptr := 7, name := "system", volumeID := 0 }
    rfl rfl rfl rfl rfl rfl rfl rfl rfl rfl

end LemonOS
